import Mathlib

/-!
Verification of the MadEasy Browser application shell (src/src-tauri/src/main.rs)
against its natural-language specification.

The Rust source is shallowly embedded: each Tauri command and event handler
becomes a Lean function. External collaborators (the url crate's parser, the
OS window-building, show/hide/focus/close capabilities, the clock) are passed
in explicitly as environment records, mirroring the spec's treatment of them
as injected capabilities. The f64 window dimensions are embedded as Rat: the
source only ever stores the exact literals 1400.0, 900.0, 1200.0, 800.0 and
600.0 and performs no arithmetic on them, so this is faithful.

A Rust panic (an .unwrap() on None / Err inside an event handler) is embedded
as the Outcome.crashed constructor carrying the underlying error message;
std::process::exit(code) as Outcome.exitProcess code.
-/

namespace MadEasy

/-- AppConfig, main.rs lines 16-23. -/
structure AppConfig where
  server_url : String
  window_width : Rat
  window_height : Rat
  auto_start : Bool
  theme : String
deriving DecidableEq, Repr

/-- Default::default() for AppConfig, main.rs lines 25-35. -/
def AppConfig.default : AppConfig :=
  { server_url := "http://localhost:5000"
    window_width := 1400
    window_height := 900
    auto_start := false
    theme := "system" }

/-- Command get_app_config, main.rs lines 38-42: the body is
`Ok(AppConfig::default())` (the comment in the source says "Load config from
file or return default", but no load is performed). -/
def get_app_config : Except String AppConfig :=
  .ok AppConfig.default

/-- Command save_app_config, main.rs lines 44-49: the body only prints the
config and returns `Ok(())`; nothing is stored. -/
def save_app_config (config : AppConfig) : Except String Unit :=
  let _ := config
  .ok ()

/-- The round trip a frontend caller performs: invoke save_app_config, then
(on success) invoke get_app_config. -/
def saveThenGet (c : AppConfig) : Except String AppConfig :=
  match save_app_config c with
  | .error e => .error e
  | .ok _ => get_app_config

/-- The window registry state: the live windows as (label, visible) pairs in
creation order. Tauri tracks windows by their unique string label; the
distinguished main window has label "main". -/
structure AppState where
  windows : List (String × Bool)
deriving DecidableEq, Repr

/-- app.get_window(label): the visibility of the window with that label, or
none when no such window exists. -/
def getWindow (s : AppState) (label : String) : Option Bool :=
  (s.windows.find? (fun p => p.1 == label)).map (fun p => p.2)

/-- Setting the visibility flag of the entry with the given label. -/
def setVisible (label : String) (v : Bool) (p : String × Bool) : String × Bool :=
  if p.1 == label then (p.1, v) else p

/-- window.show(): mark the labelled window visible. -/
def showWindow (s : AppState) (label : String) : AppState :=
  ⟨s.windows.map (setVisible label true)⟩

/-- window.hide(): mark the labelled window hidden. -/
def hideWindow (s : AppState) (label : String) : AppState :=
  ⟨s.windows.map (setVisible label false)⟩

/-- Destroying a window removes its entry. -/
def removeWindow (s : AppState) (label : String) : AppState :=
  ⟨s.windows.filter (fun p => p.1 != label)⟩

/-- WindowBuilder::build success: the new window is appended, visible. -/
def addWindow (s : AppState) (label : String) : AppState :=
  ⟨s.windows ++ [(label, true)]⟩

/-- Results of the OS window capabilities consumed by the event handlers
(tauri's Window::show / hide / set_focus / close each return a Result). -/
structure OsCaps where
  showResult : Except String Unit
  hideResult : Except String Unit
  focusResult : Except String Unit
  closeResult : Except String Unit

/-- Outcome of running an event handler: a normal return with the new window
state, a process exit (std::process::exit), or a panic (.unwrap() failure)
carrying the underlying error message. -/
inductive Outcome (α : Type) where
  | ok (a : α)
  | exitProcess (code : Nat)
  | crashed (msg : String)
deriving DecidableEq, Repr

/-- True when the handler neither panicked nor aborted abnormally. -/
def crashFree {α : Type} : Outcome α → Bool
  | .crashed _ => false
  | _ => true

/-- The message of the panic raised by Option::unwrap on None. -/
def unwrapNoneMsg : String := "called Option::unwrap on a None value"

/-- Environment of create_new_window, main.rs lines 69-87: the url crate's
parser (returning the parsed URL or a parse-error message), the clock read
`chrono::Utc::now().timestamp()` (whole seconds since the epoch), and the
outcome of WindowBuilder::build. -/
structure Env where
  parseUrl : String → Except String String
  nowTimestamp : Int
  buildResult : Except String Unit

/-- The window label generated by create_new_window:
`format!("window_{}", chrono::Utc::now().timestamp())`. -/
def windowLabel (ts : Int) : String :=
  "window_" ++ toString ts

/-- WindowUrl, as matched in main.rs lines 70-73. -/
inductive WindowUrl where
  | external (u : String)
  | app (path : String)
deriving DecidableEq, Repr

/-- The WindowBuilder::new(...).title(...).inner_size(1200,800)
.min_inner_size(800,600).build() half of create_new_window (main.rs lines
75-85): on build failure the error string is returned and no window is added;
on success the window with the generated label is registered. -/
def buildWindow (env : Env) (s : AppState) (url : WindowUrl) :
    Except String Unit × AppState :=
  let _ := url
  match env.buildResult with
  | .error e => (.error e, s)
  | .ok _ => (.ok (), addWindow s (windowLabel env.nowTimestamp))

/-- Command create_new_window, main.rs lines 69-87. With `Some(u)` the url is
parsed first and a parse failure returns `Err(format!("Invalid URL: ...", e))`
before any window is built; with None the app resource "index.html" is used. -/
def create_new_window (env : Env) (s : AppState) (url : Option String) :
    Except String Unit × AppState :=
  match url with
  | some u =>
    match env.parseUrl u with
    | .error e => (.error ("Invalid URL: " ++ e), s)
    | .ok pu => buildWindow env s (.external pu)
  | none => buildWindow env s (.app "index.html")

/-- SystemTrayEvent as matched in handle_system_tray_event (main.rs lines
151-182): LeftClick, MenuItemClick with the item id, and the catch-all arm
(right click, double click). -/
inductive SystemTrayEvent where
  | leftClick
  | menuItemClick (id : String)
  | otherTrayEvent
deriving DecidableEq, Repr

/-- The `get_window("main").unwrap(); show().unwrap(); set_focus().unwrap()`
sequence shared by the LeftClick arm and the "show" menu arm. Every step
unwraps, so a missing main window or a refused capability panics. -/
def showFocusMain (caps : OsCaps) (s : AppState) : Outcome AppState :=
  match getWindow s "main" with
  | none => .crashed unwrapNoneMsg
  | some _ =>
    match caps.showResult with
    | .error e => .crashed e
    | .ok _ =>
      match caps.focusResult with
      | .error e => .crashed e
      | .ok _ => .ok (showWindow s "main")

/-- handle_system_tray_event, main.rs lines 151-182. The Rust
`match id.as_str()` over the literals "quit", "hide", "show", "new_window"
is embedded as the equivalent chain of string-equality tests. In the
"new_window" arm the source does `let _ = create_new_window(app.clone(), None)`:
create_new_window is an async fn, so this builds its future and immediately
drops it without ever polling it — the body never runs and no window is
created; the arm is therefore a no-op on the window state. -/
def handle_system_tray_event (caps : OsCaps) (s : AppState)
    (ev : SystemTrayEvent) : Outcome AppState :=
  match ev with
  | .leftClick => showFocusMain caps s
  | .menuItemClick id =>
    if id = "quit" then .exitProcess 0
    else if id = "hide" then
      match getWindow s "main" with
      | none => .crashed unwrapNoneMsg
      | some _ =>
        match caps.hideResult with
        | .error e => .crashed e
        | .ok _ => .ok (hideWindow s "main")
    else if id = "show" then showFocusMain caps s
    else if id = "new_window" then .ok s
    else .ok s
  | .otherTrayEvent => .ok s

/-- handle_menu_event, main.rs lines 184-207, for the menu of the window
labelled originLabel. "close" calls `event.window().close().unwrap()`;
a programmatic close emits CloseRequested, which the policy installed by
setup_app intercepts for the main window (hide instead of destroy), while
any other window is destroyed. "new_window" and "about" both drop the future
of an un-awaited async fn ( `let _ = create_new_window(...)`,
`let _ = show_notification(...)` ), so neither runs; "settings" only prints. -/
def handle_menu_event (caps : OsCaps) (s : AppState)
    (originLabel : String) (itemId : String) : Outcome AppState :=
  if itemId = "quit" then .exitProcess 0
  else if itemId = "close" then
    match caps.closeResult with
    | .error e => .crashed e
    | .ok _ =>
      if originLabel = "main" then .ok (hideWindow s "main")
      else .ok (removeWindow s originLabel)
  else if itemId = "new_window" then .ok s
  else if itemId = "about" then .ok s
  else if itemId = "settings" then .ok s
  else .ok s

/-- What the CloseRequested handler produced: the window state afterwards and
whether api.prevent_close() was invoked (suppressing the default close). -/
structure CloseResponse where
  state : AppState
  preventedDefaultClose : Bool
deriving DecidableEq, Repr

/-- The WindowEvent::CloseRequested handler installed by setup_app on the main
window, main.rs lines 219-227: `window.hide().unwrap(); api.prevent_close()`.
A hide failure panics before prevent_close is reached. -/
def on_close_requested (caps : OsCaps) (s : AppState) : Outcome CloseResponse :=
  match caps.hideResult with
  | .error e => .crashed e
  | .ok _ => .ok ⟨hideWindow s "main", true⟩

/-- The commands registered with the invoke handler in main, main.rs lines
241-249: exactly these seven names are dispatchable from hosted content. -/
def registeredCommands : List String :=
  ["get_app_config", "save_app_config", "open_external_url", "get_system_info",
   "create_new_window", "minimize_to_tray", "show_notification"]

/-- Modelled from the spec: the eleven command names the spec's section 4.1
table lists as the command surface. -/
def specCommandNames : List String :=
  ["fetch_without_cors", "execute_javascript", "navigate_to", "clear_browser_data",
   "get_app_config", "save_app_config", "open_external_url", "get_system_info",
   "create_new_window", "minimize_to_tray", "show_notification"]

theorem find?_map_setVisible (label : String) (v : Bool) :
    ∀ ws : List (String × Bool),
      (ws.map (setVisible label v)).find? (fun p => p.1 == label)
        = (ws.find? (fun p => p.1 == label)).map (setVisible label v) := by
  intro ws
  induction ws with
  | nil => rfl
  | cons hd tl ih =>
    by_cases h : hd.1 = label
    · simp [setVisible, List.find?, h]
    · have hb : (hd.1 == label) = false := beq_false_of_ne h
      simp [setVisible, List.find?, hb, ih]

theorem getWindow_hideWindow (s : AppState) (label : String) :
    getWindow (hideWindow s label) label
      = (getWindow s label).map (fun _ => false) := by
  unfold getWindow hideWindow
  rw [find?_map_setVisible]
  cases h : s.windows.find? (fun p => p.1 == label) with
  | none => rfl
  | some p =>
    have hp := List.find?_some h
    simp only [] at hp
    simp [setVisible, hp]

theorem setVisible_idem (label : String) (v : Bool) (p : String × Bool) :
    setVisible label v (setVisible label v p) = setVisible label v p := by
  unfold setVisible
  by_cases h : p.1 = label
  · simp [h]
  · have hb : (p.1 == label) = false := beq_false_of_ne h
    simp [hb]

theorem hideWindow_idem (s : AppState) (label : String) :
    hideWindow (hideWindow s label) label = hideWindow s label := by
  unfold hideWindow
  have hcomp : setVisible label false ∘ setVisible label false
      = setVisible label false := funext (setVisible_idem label false)
  rw [show (⟨s.windows.map (setVisible label false)⟩ : AppState).windows
      = s.windows.map (setVisible label false) from rfl]
  rw [List.map_map, hcomp]

theorem length_hideWindow (s : AppState) (label : String) :
    (hideWindow s label).windows.length = s.windows.length := by
  unfold hideWindow
  simp

/-- C1 counterexample: saving the concrete non-default config whose server_url
is "http://example.com" and then invoking get_app_config returns the default
record, not the saved one — the saved config differs from the default, so the
round trip does not return the saved values verbatim. -/
theorem c1_saved_config_not_returned :
    saveThenGet { server_url := "http://example.com", window_width := 1400,
                  window_height := 900, auto_start := false, theme := "system" }
      = .ok AppConfig.default
    ∧ ({ server_url := "http://example.com", window_width := 1400,
         window_height := 900, auto_start := false, theme := "system" } : AppConfig)
        ≠ AppConfig.default := by
  exact ⟨rfl, by decide⟩

/-- C1 (corrected): save_app_config always succeeds but stores nothing, and a
save followed by get_app_config returns the default record — so the round trip
returns the saved values verbatim exactly when they equal the default. -/
theorem c1_round_trip_returns_default (c : AppConfig) :
    save_app_config c = .ok () ∧ saveThenGet c = .ok AppConfig.default :=
  ⟨rfl, rfl⟩

/-- C2 (confirmed): when the hide capability succeeds, a CloseRequested event
on the main window is handled by hiding it and calling prevent_close: the main
window stays registered (the live-window count is unchanged, and it is present
in the hidden state), a second close request gives the identical result
(idempotent hide), and the handler never exits the process. -/
theorem c2_close_requested_hides_main (caps : OsCaps) (s : AppState) (b : Bool)
    (hmain : getWindow s "main" = some b) (hhide : caps.hideResult = .ok ()) :
    on_close_requested caps s = .ok ⟨hideWindow s "main", true⟩
    ∧ getWindow (hideWindow s "main") "main" = some false
    ∧ (hideWindow s "main").windows.length = s.windows.length
    ∧ on_close_requested caps (hideWindow s "main") = .ok ⟨hideWindow s "main", true⟩
    ∧ ∀ code, ¬ (on_close_requested caps s = .exitProcess code) := by
  have h1 : on_close_requested caps s = .ok ⟨hideWindow s "main", true⟩ := by
    unfold on_close_requested
    rw [hhide]
  refine ⟨h1, ?_, length_hideWindow s "main", ?_, ?_⟩
  · rw [getWindow_hideWindow, hmain]
    rfl
  · unfold on_close_requested
    rw [hhide, hideWindow_idem]
  · intro code hc
    rw [h1] at hc
    exact Outcome.noConfusion hc

/-- C2 witness: the instantiation at the state holding one visible main window
and an OS whose hide call succeeds. -/
theorem c2_witness :
    on_close_requested ⟨.ok (), .ok (), .ok (), .ok ()⟩ ⟨[("main", true)]⟩
      = .ok ⟨hideWindow ⟨[("main", true)]⟩ "main", true⟩
    ∧ getWindow (hideWindow ⟨[("main", true)]⟩ "main") "main" = some false
    ∧ (hideWindow (⟨[("main", true)]⟩ : AppState) "main").windows.length
        = (⟨[("main", true)]⟩ : AppState).windows.length
    ∧ on_close_requested ⟨.ok (), .ok (), .ok (), .ok ()⟩
        (hideWindow ⟨[("main", true)]⟩ "main")
      = .ok ⟨hideWindow ⟨[("main", true)]⟩ "main", true⟩
    ∧ ∀ code, ¬ (on_close_requested ⟨.ok (), .ok (), .ok (), .ok ()⟩ ⟨[("main", true)]⟩
        = .exitProcess code) :=
  c2_close_requested_hides_main ⟨.ok (), .ok (), .ok (), .ok ()⟩ ⟨[("main", true)]⟩
    true rfl rfl

/-- C3 (code bug): two create_new_window invocations within the same Unix
second generate the same id. Concretely, at timestamp 1700000000 the first
invocation registers the window labelled "window_1700000000", and the label a
second invocation at the same timestamp generates is already taken. -/
theorem c3_same_second_id_collision :
    windowLabel 1700000000 = "window_1700000000"
    ∧ (create_new_window
         { parseUrl := fun u => Except.ok u, nowTimestamp := 1700000000,
           buildResult := Except.ok () }
         ⟨[("main", true)]⟩ none).2.windows
        = [("main", true), ("window_1700000000", true)]
    ∧ windowLabel 1700000000
        ∈ ((create_new_window
             { parseUrl := fun u => Except.ok u, nowTimestamp := 1700000000,
               buildResult := Except.ok () }
             ⟨[("main", true)]⟩ none).2.windows.map Prod.fst) := by
  refine ⟨rfl, rfl, ?_⟩
  decide

/-- C4 counterexample: the registered command surface has seven entries, while
the spec's section 4.1 table names eleven; fetch_without_cors is in the spec's
table but is not dispatchable. -/
theorem c4_surface_missing_fetch :
    registeredCommands.length = 7
    ∧ specCommandNames.length = 11
    ∧ "fetch_without_cors" ∈ specCommandNames
    ∧ "fetch_without_cors" ∉ registeredCommands := by
  refine ⟨rfl, rfl, ?_, ?_⟩ <;> decide

/-- C4 (corrected): the command surface consists of exactly the seven
registered operations — a strict subset of the spec's eleven; the four §4.1
commands fetch_without_cors, execute_javascript, navigate_to and
clear_browser_data are not dispatchable. -/
theorem c4_registered_commands :
    registeredCommands
      = ["get_app_config", "save_app_config", "open_external_url", "get_system_info",
         "create_new_window", "minimize_to_tray", "show_notification"]
    ∧ (∀ c ∈ registeredCommands, c ∈ specCommandNames)
    ∧ "execute_javascript" ∉ registeredCommands
    ∧ "navigate_to" ∉ registeredCommands
    ∧ "clear_browser_data" ∉ registeredCommands := by
  refine ⟨rfl, ?_, ?_, ?_, ?_⟩ <;> decide

/-- C5 (code bug): selecting new_window from the tray menu or the application
menu leaves the window state unchanged — the handlers drop the un-polled
future of the async create_new_window, so no window is ever created. -/
theorem c5_new_window_selection_creates_no_window (caps : OsCaps) (s : AppState)
    (w : String) :
    handle_system_tray_event caps s (.menuItemClick "new_window") = .ok s
    ∧ handle_menu_event caps s w "new_window" = .ok s :=
  ⟨rfl, rfl⟩

/-- C6 counterexample: with the main window present but the OS show capability
refusing the request, the tray left-click handler panics (crashes the process)
instead of reporting the failure. -/
theorem c6_capability_failure_is_fatal :
    handle_system_tray_event ⟨.error "show refused", .ok (), .ok (), .ok ()⟩
        ⟨[("main", true)]⟩ .leftClick
      = .crashed "show refused"
    ∧ crashFree (handle_system_tray_event ⟨.error "show refused", .ok (), .ok (), .ok ()⟩
        ⟨[("main", true)]⟩ .leftClick) = false :=
  ⟨rfl, rfl⟩

/-- C6 (corrected): the tray event handler is crash-free only under the
success conditions — when the main window is present and the show, focus and
hide capabilities all succeed, no tray event crashes; when a capability fails
or the main window is unavailable the handler panics via unwrap instead of
reporting. -/
theorem c6_no_crash_when_capabilities_succeed (caps : OsCaps) (s : AppState)
    (b : Bool) (hmain : getWindow s "main" = some b)
    (hshow : caps.showResult = .ok ()) (hfocus : caps.focusResult = .ok ())
    (hhide : caps.hideResult = .ok ()) :
    ∀ ev, crashFree (handle_system_tray_event caps s ev) = true := by
  intro ev
  cases ev with
  | leftClick =>
    simp only [handle_system_tray_event, showFocusMain]
    rw [hmain, hshow, hfocus]
    rfl
  | menuItemClick id =>
    simp only [handle_system_tray_event]
    split_ifs with h1 h2 h3 h4
    · rfl
    · rw [hmain, hhide]
      rfl
    · simp only [showFocusMain]
      rw [hmain, hshow, hfocus]
      rfl
    · rfl
    · rfl
  | otherTrayEvent => rfl

/-- C6 witness: with one visible main window and all capabilities succeeding,
the left-click handler completes without crashing. -/
theorem c6_witness :
    crashFree (handle_system_tray_event ⟨.ok (), .ok (), .ok (), .ok ()⟩
        ⟨[("main", true)]⟩ .leftClick) = true :=
  c6_no_crash_when_capabilities_succeed ⟨.ok (), .ok (), .ok (), .ok ()⟩
    ⟨[("main", true)]⟩ true rfl rfl rfl rfl .leftClick

/-- C7 (confirmed): selecting quit from the tray menu or the application menu
exits the process with code 0; selecting the tray hide item (main window
present, hide capability succeeding) leaves the process running with the main
window hidden. -/
theorem c7_quit_exits_hide_keeps_running (caps : OsCaps) (s : AppState)
    (w : String) (b : Bool)
    (hmain : getWindow s "main" = some b) (hhide : caps.hideResult = .ok ()) :
    handle_system_tray_event caps s (.menuItemClick "quit") = .exitProcess 0
    ∧ handle_menu_event caps s w "quit" = .exitProcess 0
    ∧ handle_system_tray_event caps s (.menuItemClick "hide") = .ok (hideWindow s "main")
    ∧ getWindow (hideWindow s "main") "main" = some false := by
  refine ⟨rfl, rfl, ?_, ?_⟩
  · simp only [handle_system_tray_event]
    rw [hmain, hhide]
    rfl
  · rw [getWindow_hideWindow, hmain]
    rfl

/-- C7 witness: the instantiation at the state holding one visible main window
and an OS whose hide call succeeds. -/
theorem c7_witness :
    handle_system_tray_event ⟨.ok (), .ok (), .ok (), .ok ()⟩ ⟨[("main", true)]⟩
        (.menuItemClick "quit") = .exitProcess 0
    ∧ handle_menu_event ⟨.ok (), .ok (), .ok (), .ok ()⟩ ⟨[("main", true)]⟩
        "main" "quit" = .exitProcess 0
    ∧ handle_system_tray_event ⟨.ok (), .ok (), .ok (), .ok ()⟩ ⟨[("main", true)]⟩
        (.menuItemClick "hide") = .ok (hideWindow ⟨[("main", true)]⟩ "main")
    ∧ getWindow (hideWindow ⟨[("main", true)]⟩ "main") "main" = some false :=
  c7_quit_exits_hide_keeps_running ⟨.ok (), .ok (), .ok (), .ok ()⟩
    ⟨[("main", true)]⟩ "main" true rfl rfl

/-- C8 (confirmed): get_app_config always succeeds, returning the default
AppConfig record; it never returns an error. -/
theorem c8_get_app_config_always_succeeds :
    get_app_config = .ok AppConfig.default
    ∧ ∀ e, ¬ (get_app_config = .error e) :=
  ⟨rfl, fun _ h => Except.noConfusion h⟩

/-- C9 (confirmed): when the URL fails to parse, create_new_window returns the
"Invalid URL: ..." error and registers no window; when parsing succeeds (or no
URL is given) but the OS window-creation capability fails, it returns that
error and registers no window. -/
theorem c9_create_new_window_error_paths (env : Env) (s : AppState) :
    (∀ u e, env.parseUrl u = .error e →
        create_new_window env s (some u) = (.error ("Invalid URL: " ++ e), s))
    ∧ (∀ m, env.buildResult = .error m →
        create_new_window env s none = (.error m, s)
        ∧ ∀ u pu, env.parseUrl u = .ok pu →
            create_new_window env s (some u) = (.error m, s)) := by
  constructor
  · intro u e h
    simp only [create_new_window]
    rw [h]
  · intro m hb
    constructor
    · simp only [create_new_window, buildWindow]
      rw [hb]
    · intro u pu hp
      simp only [create_new_window, buildWindow]
      rw [hp, hb]

/-- C9 witness: a parser rejecting every string makes create_new_window fail
with the Invalid URL error and leave the window state unchanged. -/
theorem c9_witness :
    create_new_window
        { parseUrl := fun u => let _ := u; Except.error "relative URL without a base",
          nowTimestamp := 0, buildResult := Except.ok () }
        ⟨[("main", true)]⟩ (some "not a url")
      = (.error "Invalid URL: relative URL without a base", ⟨[("main", true)]⟩) :=
  (c9_create_new_window_error_paths
      { parseUrl := fun u => let _ := u; Except.error "relative URL without a base",
        nowTimestamp := 0, buildResult := Except.ok () }
      ⟨[("main", true)]⟩).1 "not a url" "relative URL without a base" rfl

/-- C10 (confirmed): get_app_config is a constant function returning exactly
the documented default record, independent of any prior save_app_config call. -/
theorem c10_get_app_config_constant :
    get_app_config
      = .ok { server_url := "http://localhost:5000", window_width := 1400,
              window_height := 900, auto_start := false, theme := "system" }
    ∧ ∀ c, saveThenGet c = get_app_config :=
  ⟨rfl, fun _ => rfl⟩

end MadEasy
